import Mathlib

/-!
Verification of the SM64 shadow subsystem (src/game/shadow.c).

The C code is shallowly embedded: f32 values are modelled as exact
rationals, machine integers as Nat/Int with explicit conversions where
an implicit C conversion happens, the single mutable shadow workspace
and the process-wide flag bitset as explicit state records threaded
through each function, and external collaborators (collision queries,
water-level queries, trigonometric tables, the display-list allocator)
as an environment record of abstract functions.
-/

set_option maxHeartbeats 1000000

namespace SM64Shadow

/-! ## Pure falloff and easing functions -/

/-- Model of scale_shadow_with_distance (shadow.c lines 113-121).
Shrink a shadow when its parent object is further from the floor. -/
def scale_shadow_with_distance (initial distFromFloor : ℚ) : ℚ :=
  if distFromFloor ≤ 0 then
    initial
  else if 600 ≤ distFromFloor then
    initial * (1/2)
  else
    initial * (1 - (distFromFloor * (1/2)) / 600)

/-- Model of dim_shadow_with_distance (shadow.c lines 126-136).
The C function computes the interpolation in f32 and returns it as an
s32; the float-to-int conversion truncates toward zero, which on the
positive values produced here is the floor. -/
def dim_shadow_with_distance (solidity : ℕ) (distFromFloor : ℚ) : ℤ :=
  if solidity < 121 then
    solidity
  else if distFromFloor ≤ 0 then
    solidity
  else if 600 ≤ distFromFloor then
    120
  else
    ⌊((120 - (solidity : ℚ)) * distFromFloor) / 600 + solidity⌋

/-- Model of linearly_interpolate_solidity_positive (shadow.c lines
347-355): the value the function assigns to the workspace solidity.
All four arguments of the C function are machine integers (u8/s16);
the arithmetic in the final branch is done in f32, here exact. -/
def linearly_interpolate_solidity_positive (finalSolidity : ℕ) (curr cstart cend : ℤ) : ℚ :=
  if 0 ≤ curr ∧ curr < cstart then
    0
  else if cend < curr then
    finalSolidity
  else
    (finalSolidity : ℚ) * (curr - cstart) / (cend - cstart)

/-- Model of linearly_interpolate_solidity_negative (shadow.c lines
362-372): the value the function assigns to the workspace solidity. -/
def linearly_interpolate_solidity_negative (initialSolidity : ℕ) (curr cstart cend : ℤ) : ℚ :=
  if cstart ≤ curr ∧ curr ≤ cend then
    (initialSolidity : ℚ) * (1 - ((curr - cstart : ℤ) : ℚ) / ((cend - cstart : ℤ) : ℚ))
  else
    0

/-- Model of get_texture_coords (shadow.c lines 226-234), the
non-HD_SHADOWS branch (the HD branch uses 127/63 in place of 31/15
with the same sign structure). -/
def get_texture_coords (vertexNum : ℕ) : ℤ × ℤ :=
  (((vertexNum &&& 1 : ℕ) : ℤ) * 31 - 15, ((vertexNum >>> 1 : ℕ) : ℤ) * 31 - 15)

/-- Model of get_vertex_coords (shadow.c lines 267-272). -/
def get_vertex_coords (index : ℕ) : ℤ × ℤ :=
  let xCoord : ℤ := ((index &&& 1 : ℕ) : ℤ) - 1
  let zCoord : ℤ := ((index >>> 1 : ℕ) : ℤ) - 1
  (if xCoord = 0 then 1 else xCoord, if zCoord = 0 then 1 else zCoord)

/-- The corner of the quad a coordinate pair lies in: the sign of each
component, used to compare the texture-coordinate corner with the
geometric-offset corner. -/
def corner_sign (p : ℤ × ℤ) : ℤ × ℤ :=
  (if p.1 < 0 then -1 else 1, if p.2 < 0 then -1 else 1)

/-! ## Data model -/

/-- A 3-component f32 vector (Vec3f). -/
structure Vec3 where
  x : ℚ
  y : ℚ
  z : ℚ
deriving DecidableEq

/-- An external collision surface (struct Surface), as far as the
shadow code reads it: its normal and its surface type. The surface
type tag values live in a header outside the surveyed sources; only
their distinctness matters here. -/
structure Surface where
  normal : Vec3
  stype : ℤ
deriving DecidableEq

/-- The single mutable shadow workspace (struct Shadow, gCurrShadow). -/
structure Shadow where
  parentPos : Vec3
  floorHeight : ℚ
  shadowScale : ℚ
  floor : Surface
  floorPitch : ℤ
  floorYaw : ℤ
  solidity : ℕ
deriving DecidableEq

/-- The process-wide shadow flag bitset (gShadowFlags), one Bool per
flag bit. -/
structure ShadowFlags where
  waterBox : Bool
  waterSurface : Bool
  iceCarpet : Bool
  raised : Bool
deriving DecidableEq

/-- SHADOW_FLAGS_NONE: the reset value of the flag bitset. -/
def SHADOW_FLAGS_NONE : ShadowFlags := ⟨false, false, false, false⟩

/-- One emitted shadow vertex: the data make_vertex receives that
varies between vertices (position after rounding, scaled texture
coordinates, alpha). The constant colour 255,255,255 is omitted. -/
structure ShadowVtx where
  x : ℤ
  y : ℤ
  z : ℤ
  textureX : ℤ
  textureY : ℤ
  alpha : ℕ
deriving DecidableEq

/-- Shape selector for add_shadow_to_display_list. -/
def SHADOW_SHAPE_CIRCLE : ℕ := 0

def SHADOW_SHAPE_SQUARE : ℕ := 1

/-- The renderable output of a successful shadow build: four vertices
plus the shape whose header display list is emitted. -/
structure ShadowGfx where
  verts : List ShadowVtx
  shape : ℕ
deriving DecidableEq

/-- A hardcoded rectangle shadow entry (shadowRectangle). -/
structure ShadowRectangle where
  halfWidth : ℚ
  halfLength : ℚ
  scaleWithDistance : Bool
deriving DecidableEq

/-- The rectangles table (shadow.c lines 82-87): Spindel and Whomp. -/
def rectangles : List ShadowRectangle :=
  [⟨360, 230, true⟩, ⟨200, 180, true⟩]

/-- External collaborators and ambient globals read by the shadow
code, modelled as an environment of abstract functions and values. -/
structure ShadowEnv where
  find_water_level_and_floor : ℚ → ℚ → ℚ × Option Surface
  find_water_level : ℚ → ℚ → ℚ
  find_floor : ℚ → ℚ → ℚ → ℚ × Option Surface
  get_surface_height_at_location : ℚ → ℚ → Surface → ℚ
  sins : ℤ → ℚ
  coss : ℤ → ℚ
  atan2s : ℚ → ℚ → ℤ
  sqrtf : ℚ → ℚ
  allocVertsOk : Bool
  allocDisplayListOk : Bool
  gCurrLevelNum : ℕ
  gCurrAreaIndex : ℕ
  gFlyingCarpetState : ℕ
  animID : ℕ
  animFrame : ℤ
  oFaceAngleYaw : ℤ
  curNodeIsMario : Bool
  curNodeIsMirrorMario : Bool
  oFloor : Option Surface
  oFloorHeight : ℚ
  marioFloor : Surface
  marioFloorHeight : ℚ

/-! ## Constants from headers outside the surveyed sources.

The numeric values of the level, surface-type, animation and
flying-carpet tags are not in src/; only their distinctness is used,
so they are given arbitrary distinct values. -/

/-- Sentinel lower bound for floors; the comment on
get_water_level_below_shadow (shadow.c line 139-140) documents it as
the minus ten thousand threshold. -/
def FLOOR_LOWER_LIMIT_MISC : ℚ := -10000

def SURFACE_BURNING : ℤ := 1

def SURFACE_ICE : ℤ := 2

def SURFACE_DEATH_PLANE : ℤ := 3

def LEVEL_BITFS : ℕ := 1

def LEVEL_LLL : ℕ := 2

def LEVEL_RR : ℕ := 3

def MARIO_ANIM_IDLE_ON_LEDGE : ℕ := 1

def MARIO_ANIM_FAST_LEDGE_GRAB : ℕ := 2

def MARIO_ANIM_SLOW_LEDGE_GRAB : ℕ := 3

def MARIO_ANIM_CLIMB_DOWN_LEDGE : ℕ := 4

def FLYING_CARPET_MOVING_WITHOUT_MARIO : ℕ := 1

def FLYING_CARPET_MOVING_WITH_MARIO : ℕ := 2

/-- Modelled from the spec: the ShadowType request tags (shadow.h is
not in the surveyed sources). The spec names the six strategies
PlayerCircle, Circle, SquarePermanent, SquareScalable,
SquareToggleable and HardcodedRectangle(index); consecutive small
enum values are assumed, with the hardcoded-rectangle offset directly
after the named tags. -/
def SHADOW_CIRCLE_PLAYER : ℤ := 0

def SHADOW_CIRCLE : ℤ := 1

def SHADOW_SQUARE_PERMANENT : ℤ := 2

def SHADOW_SQUARE_SCALABLE : ℤ := 3

def SHADOW_SQUARE_TOGGLABLE : ℤ := 4

def SHADOW_RECTANGLE_HARDCODED_OFFSET : ℤ := 5

/-- The three results of correct_shadow_solidity_for_animations, in
enum order (shadow.c lines 41-57). -/
def SHADOW_SOLIDITY_NO_SHADOW : ℕ := 0

def SHADOW_SOILDITY_ALREADY_SET : ℕ := 1

def SHADOW_SOLIDITY_NOT_YET_SET : ℕ := 2

/-! ## Conversions -/

/-- C roundf: round to nearest, ties away from zero. -/
def roundf (q : ℚ) : ℤ :=
  if q < 0 then -round (-q) else round q

/-- Storing an f32 into the u8 solidity field. For the in-range values
the shadow code produces this is truncation toward zero of a
non-negative value; out-of-range conversion is undefined behaviour in
C and modelled here as floor followed by wraparound. -/
def f32_to_u8 (q : ℚ) : ℕ :=
  (Int.toNat ⌊q⌋) % 256

/-- Storing the s32 result of dim_shadow_with_distance into the u8
solidity field; the values produced from u8 inputs are in range. -/
def s32_to_u8 (z : ℤ) : ℕ :=
  (Int.toNat z) % 256

/-! ## The floor/water resolve step -/

/-- Model of get_water_level_below_shadow (shadow.c lines 142-151).
Returns the (possibly clamped) water level, the updated flags, and
the water-surface floor written through the out-pointer by
find_water_level_and_floor. -/
def get_water_level_below_shadow (env : ShadowEnv) (st : Shadow) (flags : ShadowFlags) :
    ℚ × ShadowFlags × Option Surface :=
  let q := env.find_water_level_and_floor st.parentPos.x st.parentPos.z
  let waterLevel := q.1
  let waterFloor := q.2
  if waterLevel < FLOOR_LOWER_LIMIT_MISC then
    (FLOOR_LOWER_LIMIT_MISC, flags, waterFloor)
  else if st.parentPos.y ≥ waterLevel ∧ st.floorHeight ≤ waterLevel then
    (waterLevel, { flags with waterBox := true }, waterFloor)
  else
    (waterLevel, flags, waterFloor)

/-- Result of the floor/water resolve step of init_shadow: the failure
flag, the workspace and flag state after the step, and the local
normal copy n that the rest of init_shadow uses. -/
structure ResolveOut where
  fail : Bool
  st : Shadow
  flags : ShadowFlags
  n : Vec3
deriving DecidableEq

/-- Model of the floor/water resolve step of init_shadow (shadow.c
lines 161-198): set the parent position, query the water level, and
either adopt the water surface, synthesize a flat normal, or reject
degenerate floors. On failure the C function returns with the
workspace in its partially written state, which is preserved here. -/
def init_shadow_resolve (env : ShadowEnv) (st0 : Shadow) (flags0 : ShadowFlags)
    (xPos yPos zPos : ℚ) : ResolveOut :=
  let st1 := { st0 with parentPos := ⟨xPos, yPos, zPos⟩ }
  let w := get_water_level_below_shadow env st1 flags0
  let waterLevel := w.1
  let flags1 := w.2.1
  let waterFloor := w.2.2
  let n : Vec3 := st1.floor.normal
  if flags1.waterBox then
    let st2 := { st1 with floorHeight := waterLevel }
    match waterFloor with
    | some wf =>
        ⟨false, { st2 with floor := wf, solidity := 200 },
         { flags1 with waterBox := false, waterSurface := true }, n⟩
    | none =>
        ⟨false, st2, { flags1 with waterSurface := false }, ⟨0, 1, 0⟩⟩
  else
    if n.y ≤ 0 ∨ st1.floorHeight < FLOOR_LOWER_LIMIT_MISC then
      ⟨true, st1, flags1, n⟩
    else
      ⟨false, st1, flags1, n⟩

/-- Model of the tail of init_shadow (shadow.c lines 200-217): apply
distance dimming and scaling and derive the floor pitch and yaw from
the resolved normal. -/
def init_shadow_finish (env : ShadowEnv) (r : ResolveOut) (yPos : ℚ)
    (shadowScale : ℤ) (overwriteSolidity : ℕ) : Shadow × ShadowFlags :=
  let dy := yPos - r.st.floorHeight
  let st2 :=
    if overwriteSolidity ≠ 0 then
      { r.st with solidity := s32_to_u8 (dim_shadow_with_distance overwriteSolidity dy) }
    else
      r.st
  let st3 := { st2 with shadowScale := scale_shadow_with_distance shadowScale dy }
  let floorSteepness := r.n.x * r.n.x + r.n.z * r.n.z
  if floorSteepness ≠ 0 then
    ({ st3 with floorPitch := 0x4000 - env.atan2s (env.sqrtf floorSteepness) r.n.y,
                floorYaw := env.atan2s r.n.z r.n.x }, r.flags)
  else
    ({ st3 with floorPitch := 0, floorYaw := 0 }, r.flags)

/-- Model of init_shadow (shadow.c lines 161-218). The Bool is the C
return value: true means failure (draw no shadow). -/
def init_shadow (env : ShadowEnv) (st0 : Shadow) (flags0 : ShadowFlags)
    (xPos yPos zPos : ℚ) (shadowScale : ℤ) (overwriteSolidity : ℕ) :
    Bool × Shadow × ShadowFlags :=
  let r := init_shadow_resolve env st0 flags0 xPos yPos zPos
  if r.fail then
    (true, r.st, r.flags)
  else
    let f := init_shadow_finish env r yPos shadowScale overwriteSolidity
    (false, f.1, f.2)

/-! ## Vertex construction -/

/-- Model of make_shadow_vertex_at_xyz (shadow.c lines 244-259). -/
def make_shadow_vertex_at_xyz (flags : ShadowFlags) (index : ℕ)
    (relX relY relZ : ℚ) (alpha : ℕ) : ShadowVtx :=
  let vtxY := roundf relY
  let t := get_texture_coords index
  let vtxY := if flags.raised then vtxY + 5 else vtxY
  ⟨roundf relX, vtxY, roundf relZ, t.1 * 32, t.2 * 32, alpha⟩

/-- Model of calculate_vertex_xyz (shadow.c lines 285-307). -/
def calculate_vertex_xyz (env : ShadowEnv) (st : Shadow) (flags : ShadowFlags)
    (index : ℕ) : Vec3 :=
  let tiltedScale := env.coss st.floorPitch * st.shadowScale
  let downwardAngle := st.floorYaw
  let c := get_vertex_coords index
  let halfScale := ((c.1 : ℚ) * st.shadowScale) / 2
  let halfTiltedScale := ((c.2 : ℚ) * tiltedScale) / 2
  let sinYaw := env.sins downwardAngle
  let cosYaw := env.coss downwardAngle
  let xPosVtx := halfTiltedScale * sinYaw + halfScale * cosYaw + st.parentPos.x
  let zPosVtx := halfTiltedScale * cosYaw - halfScale * sinYaw + st.parentPos.z
  let yPosVtx :=
    if flags.waterBox then st.floorHeight
    else env.get_surface_height_at_location xPosVtx zPosVtx st.floor
  ⟨xPosVtx, yPosVtx, zPosVtx⟩

/-- Model of make_shadow_vertex (shadow.c lines 312-325). -/
def make_shadow_vertex (env : ShadowEnv) (st : Shadow) (flags : ShadowFlags)
    (index : ℕ) : ShadowVtx :=
  let solidity := if flags.waterBox then 200 else st.solidity
  let posVtx := calculate_vertex_xyz env st flags index
  make_shadow_vertex_at_xyz flags index (posVtx.x - st.parentPos.x)
    (posVtx.y - st.parentPos.y) (posVtx.z - st.parentPos.z) solidity

/-! ## Animation correction and lava correction -/

/-- Model of correct_shadow_solidity_for_animations (shadow.c lines
377-394): the returned action code and the workspace after any easing
write to the solidity field. -/
def correct_shadow_solidity_for_animations (env : ShadowEnv) (st : Shadow)
    (initialSolidity : ℕ) : ℕ × Shadow :=
  let animFrame := env.animFrame
  if env.animID = MARIO_ANIM_IDLE_ON_LEDGE then
    (SHADOW_SOLIDITY_NO_SHADOW, st)
  else if env.animID = MARIO_ANIM_FAST_LEDGE_GRAB then
    (SHADOW_SOILDITY_ALREADY_SET,
     { st with solidity :=
         f32_to_u8 (linearly_interpolate_solidity_positive initialSolidity animFrame 5 14) })
  else if env.animID = MARIO_ANIM_SLOW_LEDGE_GRAB then
    (SHADOW_SOILDITY_ALREADY_SET,
     { st with solidity :=
         f32_to_u8 (linearly_interpolate_solidity_positive initialSolidity animFrame 21 33) })
  else if env.animID = MARIO_ANIM_CLIMB_DOWN_LEDGE then
    (SHADOW_SOILDITY_ALREADY_SET,
     { st with solidity :=
         f32_to_u8 (linearly_interpolate_solidity_negative initialSolidity animFrame 0 5) })
  else
    (SHADOW_SOLIDITY_NOT_YET_SET, st)

/-- Model of correct_lava_shadow_height (shadow.c lines 399-415). -/
def correct_lava_shadow_height (env : ShadowEnv) (st : Shadow) (flags : ShadowFlags) :
    Shadow × ShadowFlags :=
  if env.gCurrLevelNum = LEVEL_BITFS ∧ st.floor.stype = SURFACE_BURNING then
    if st.floorHeight < -3000 then
      ({ st with floorHeight := -3062 }, { flags with waterBox := true })
    else if st.floorHeight > 3400 then
      ({ st with floorHeight := 3492 }, { flags with waterBox := true })
    else
      (st, flags)
  else if env.gCurrLevelNum = LEVEL_LLL ∧ env.gCurrAreaIndex = 1 ∧
      st.floor.stype = SURFACE_BURNING then
    ({ st with floorHeight := 5 }, { flags with waterBox := true })
  else
    (st, flags)

/-! ## Shape strategies -/

/-- The flying-carpet flag update at the head of create_shadow_player
(shadow.c lines 425-435). -/
def player_carpet_flags (env : ShadowEnv) (st0 : Shadow) (flags0 : ShadowFlags) :
    ShadowFlags :=
  if env.gCurrLevelNum = LEVEL_RR ∧ st0.floor.stype ≠ SURFACE_DEATH_PLANE then
    if env.gFlyingCarpetState = FLYING_CARPET_MOVING_WITHOUT_MARIO then
      { flags0 with iceCarpet := true, raised := true }
    else if env.gFlyingCarpetState = FLYING_CARPET_MOVING_WITH_MARIO then
      { flags0 with iceCarpet := true }
    else flags0
  else flags0

/-- The tail of create_shadow_player after the animation correction
(shadow.c lines 441-469): initialize, allocate, apply the lava height
correction and emit the four vertices. -/
def create_shadow_player_post (env : ShadowEnv) (a2 : Shadow) (flC : ShadowFlags)
    (xPos yPos zPos : ℚ) (shadowScale : ℤ) (overwrite : ℕ) :
    Option ShadowGfx × Shadow × ShadowFlags :=
  let i := init_shadow env a2 flC xPos yPos zPos shadowScale overwrite
  if i.1 then
    (none, i.2.1, i.2.2)
  else if env.allocVertsOk = false ∨ env.allocDisplayListOk = false then
    (none, i.2.1, i.2.2)
  else
    let l := correct_lava_shadow_height env i.2.1 i.2.2
    (some ⟨[0, 1, 2, 3].map (make_shadow_vertex env l.1 l.2), SHADOW_SHAPE_CIRCLE⟩,
     l.1, l.2)

/-- Model of create_shadow_player (shadow.c lines 421-470): the
returned display list (none when no shadow is drawn) together with
the final workspace and flag state. -/
def create_shadow_player (env : ShadowEnv) (st0 : Shadow) (flags0 : ShadowFlags)
    (xPos yPos zPos : ℚ) (shadowScale : ℤ) (solidity : ℕ) :
    Option ShadowGfx × Shadow × ShadowFlags :=
  let flags1 := player_carpet_flags env st0 flags0
  let a := correct_shadow_solidity_for_animations env st0 solidity
  if a.1 = SHADOW_SOLIDITY_NO_SHADOW then
    (none, a.2, flags1)
  else
    create_shadow_player_post env a.2 flags1 xPos yPos zPos shadowScale
      (if a.1 = SHADOW_SOILDITY_ALREADY_SET then 0 else solidity)

/-- Model of create_shadow_circle (shadow.c lines 475-494). -/
def create_shadow_circle (env : ShadowEnv) (st0 : Shadow) (flags0 : ShadowFlags)
    (xPos yPos zPos : ℚ) (shadowScale : ℤ) (solidity : ℕ) :
    Option ShadowGfx × Shadow × ShadowFlags :=
  let i := init_shadow env st0 flags0 xPos yPos zPos shadowScale solidity
  if i.1 then
    (none, i.2.1, i.2.2)
  else if env.allocVertsOk = false ∨ env.allocDisplayListOk = false then
    (none, i.2.1, i.2.2)
  else
    (some ⟨[0, 1, 2, 3].map (make_shadow_vertex env i.2.1 i.2.2), SHADOW_SHAPE_CIRCLE⟩,
     i.2.1, i.2.2)

/-- Model of rotate_rectangle (shadow.c lines 101-107): returns the
rotated (newZ, newX) pair for the current graph node object's yaw. -/
def rotate_rectangle (env : ShadowEnv) (oldZ oldX : ℚ) : ℚ × ℚ :=
  let sinYaw := env.sins env.oFaceAngleYaw
  let cosYaw := env.coss env.oFaceAngleYaw
  (oldZ * cosYaw - oldX * sinYaw, oldZ * sinYaw + oldX * cosYaw)

/-- Model of create_shadow_rectangle (shadow.c lines 531-553). It
never touches the workspace, so only the display list is returned. -/
def create_shadow_rectangle (env : ShadowEnv) (flags : ShadowFlags)
    (halfWidth halfLength relY : ℚ) (solidity : ℕ) : Option ShadowGfx :=
  if env.allocVertsOk = false ∨ env.allocDisplayListOk = false then
    none
  else
    let frontLeft := rotate_rectangle env (-halfLength) (-halfWidth)
    let frontRight := rotate_rectangle env (-halfLength) halfWidth
    let backLeft := rotate_rectangle env halfLength (-halfWidth)
    let backRight := rotate_rectangle env halfLength halfWidth
    some ⟨[make_shadow_vertex_at_xyz flags 0 frontLeft.2 relY frontLeft.1 solidity,
           make_shadow_vertex_at_xyz flags 1 frontRight.2 relY frontRight.1 solidity,
           make_shadow_vertex_at_xyz flags 2 backLeft.2 relY backLeft.1 solidity,
           make_shadow_vertex_at_xyz flags 3 backRight.2 relY backRight.1 solidity],
          SHADOW_SHAPE_SQUARE⟩

/-- Model of get_shadow_height_solidity (shadow.c lines 559-575):
returns (failure, shadowHeight, solidity, flags) for the out
parameters and flag side effect. -/
def get_shadow_height_solidity (env : ShadowEnv) (st : Shadow) (flags : ShadowFlags)
    (xPos yPos zPos : ℚ) (solidity : ℕ) : Bool × ℚ × ℕ × ShadowFlags :=
  let shadowHeight := st.floorHeight
  if shadowHeight < FLOOR_LOWER_LIMIT_MISC then
    (true, shadowHeight, solidity, flags)
  else
    let waterLevel := env.find_water_level xPos zPos
    if waterLevel < FLOOR_LOWER_LIMIT_MISC then
      (false, shadowHeight, solidity, flags)
    else if yPos ≥ waterLevel ∧ waterLevel ≥ shadowHeight then
      (false, waterLevel, 200, { flags with waterBox := true })
    else
      (false, shadowHeight, solidity, flags)

/-- Model of create_shadow_square (shadow.c lines 580-597). The s16
right shift by one is an arithmetic shift, i.e. floor division. -/
def create_shadow_square (env : ShadowEnv) (st : Shadow) (flags : ShadowFlags)
    (xPos yPos zPos : ℚ) (shadowScale : ℤ) (solidity : ℕ) (shadowType : ℤ) :
    Option ShadowGfx × ShadowFlags :=
  let g := get_shadow_height_solidity env st flags xPos yPos zPos solidity
  if g.1 then
    (none, g.2.2.2)
  else
    let shadowHeight := g.2.1
    let solidity1 := g.2.2.1
    let flags1 := g.2.2.2
    let distFromShadow := yPos - shadowHeight
    if shadowType = SHADOW_SQUARE_PERMANENT then
      (create_shadow_rectangle env flags1 ((Int.fdiv shadowScale 2 : ℤ) : ℚ)
        ((Int.fdiv shadowScale 2 : ℤ) : ℚ) (-distFromShadow) solidity1, flags1)
    else if shadowType = SHADOW_SQUARE_SCALABLE then
      let shadowRadius := scale_shadow_with_distance shadowScale distFromShadow * (1/2)
      (create_shadow_rectangle env flags1 shadowRadius shadowRadius
        (-distFromShadow) solidity1, flags1)
    else if shadowType = SHADOW_SQUARE_TOGGLABLE then
      let shadowRadius : ℚ :=
        if distFromShadow ≥ 600 then 0 else ((Int.fdiv shadowScale 2 : ℤ) : ℚ)
      (create_shadow_rectangle env flags1 shadowRadius shadowRadius
        (-distFromShadow) solidity1, flags1)
    else
      (none, flags1)

/-- Model of create_shadow_hardcoded_rectangle (shadow.c lines
603-628). The rectangles table access has no range check in C; an
index outside the table is an out-of-bounds read, modelled as the
outer none (undefined behaviour), distinct from the inner none that
means a shadow is legitimately not drawn. -/
def create_shadow_hardcoded_rectangle (env : ShadowEnv) (st : Shadow)
    (flags : ShadowFlags) (xPos yPos zPos : ℚ) (shadowScale : ℤ) (solidity : ℕ)
    (shadowType : ℤ) : Option (Option ShadowGfx × ShadowFlags) :=
  let idx := shadowType - SHADOW_RECTANGLE_HARDCODED_OFFSET
  let g := get_shadow_height_solidity env st flags xPos yPos zPos solidity
  if g.1 then
    some (none, g.2.2.2)
  else
    let shadowHeight := g.2.1
    let solidity1 := g.2.2.1
    let flags1 := g.2.2.2
    let distFromShadow := yPos - shadowHeight
    match (if 0 ≤ idx then rectangles.get? idx.toNat else none) with
    | none => none
    | some rect =>
        if rect.scaleWithDistance then
          some (create_shadow_rectangle env flags1
            (scale_shadow_with_distance rect.halfWidth distFromShadow)
            (scale_shadow_with_distance rect.halfLength distFromShadow)
            (-distFromShadow) solidity1, flags1)
        else
          some (create_shadow_rectangle env flags1 rect.halfWidth rect.halfLength
            (-distFromShadow) solidity1, flags1)

/-! ## The dispatcher -/

/-- The strategy dispatch of create_shadow_below_xyz (shadow.c lines
655-662), after the floor has been resolved and the flags reset. The
outer none marks the out-of-bounds table read of the
hardcoded-rectangle path. -/
def shadow_dispatch (env : ShadowEnv) (st1 : Shadow) (flags1 : ShadowFlags)
    (xPos yPos zPos : ℚ) (shadowScale : ℤ) (shadowSolidity : ℕ) (shadowType : ℤ) :
    Option (Option ShadowGfx × Shadow × ShadowFlags) :=
  if shadowType = SHADOW_CIRCLE_PLAYER then
    some (create_shadow_player env st1 flags1 xPos yPos zPos shadowScale shadowSolidity)
  else if shadowType = SHADOW_CIRCLE then
    some (create_shadow_circle env st1 flags1 xPos yPos zPos shadowScale shadowSolidity)
  else if shadowType = SHADOW_SQUARE_PERMANENT ∨ shadowType = SHADOW_SQUARE_SCALABLE ∨
      shadowType = SHADOW_SQUARE_TOGGLABLE then
    let s := create_shadow_square env st1 flags1 xPos yPos zPos shadowScale
      shadowSolidity shadowType
    some (s.1, st1, s.2)
  else
    (create_shadow_hardcoded_rectangle env st1 flags1 xPos yPos zPos shadowScale
      shadowSolidity shadowType).map (fun p => (p.1, st1, p.2))

/-- The floor resolution preamble of create_shadow_below_xyz
(shadow.c lines 635-648): prefer Mario's cached floor, then the
object's cached floor, then a fresh find_floor query; none when the
fresh query finds no floor. -/
def resolved_floor (env : ShadowEnv) (st0 : Shadow) (xPos yPos zPos : ℚ) :
    Option Shadow :=
  if env.curNodeIsMario then
    some { st0 with floor := env.marioFloor, floorHeight := env.marioFloorHeight }
  else if env.curNodeIsMirrorMario = false ∧ env.oFloor.isSome then
    some { st0 with floor := env.oFloor.getD st0.floor, floorHeight := env.oFloorHeight }
  else
    let f := env.find_floor xPos yPos zPos
    match f.2 with
    | some fl => some { st0 with floor := fl, floorHeight := f.1 }
    | none => none

/-- The flag reset of create_shadow_below_xyz (shadow.c lines
650-653) followed by the strategy dispatch. -/
def shadow_build_with_floor (env : ShadowEnv) (st1 : Shadow)
    (xPos yPos zPos : ℚ) (shadowScale : ℤ) (shadowSolidity : ℕ) (shadowType : ℤ) :
    Option (Option ShadowGfx × Shadow × ShadowFlags) :=
  let flags1 : ShadowFlags :=
    { SHADOW_FLAGS_NONE with iceCarpet := st1.floor.stype = SURFACE_ICE }
  shadow_dispatch env st1 flags1 xPos yPos zPos shadowScale shadowSolidity shadowType

/-- Model of create_shadow_below_xyz (shadow.c lines 634-664). When
the fresh find_floor query fails the C function returns NULL with the
found height already written to the workspace and the flags not yet
reset. -/
def create_shadow_below_xyz (env : ShadowEnv) (st0 : Shadow) (flags0 : ShadowFlags)
    (xPos yPos zPos : ℚ) (shadowScale : ℤ) (shadowSolidity : ℕ) (shadowType : ℤ) :
    Option (Option ShadowGfx × Shadow × ShadowFlags) :=
  match resolved_floor env st0 xPos yPos zPos with
  | some st1 => shadow_build_with_floor env st1 xPos yPos zPos shadowScale
      shadowSolidity shadowType
  | none =>
      some (none, { st0 with floorHeight := (env.find_floor xPos yPos zPos).1 }, flags0)

/-! ## Concrete fixtures for witnesses and counterexamples -/

/-- A flat, upward-facing default surface. -/
@[reducible] def testSurface : Surface := ⟨⟨0, 1, 0⟩, 0⟩

/-- A second, distinguishable surface used as a water-surface floor. -/
@[reducible] def testSurface2 : Surface := ⟨⟨0, 1, 0⟩, 4⟩

/-- A neutral environment: no water anywhere, flat floor at height 0
under Mario, allocation succeeding, no special level or animation. -/
@[reducible] def testEnv : ShadowEnv where
  find_water_level_and_floor := fun _ _ => (FLOOR_LOWER_LIMIT_MISC - 1, none)
  find_water_level := fun _ _ => FLOOR_LOWER_LIMIT_MISC - 1
  find_floor := fun _ _ _ => (0, some testSurface)
  get_surface_height_at_location := fun _ _ _ => 0
  sins := fun _ => 0
  coss := fun _ => 1
  atan2s := fun _ _ => 0
  sqrtf := fun _ => 0
  allocVertsOk := true
  allocDisplayListOk := true
  gCurrLevelNum := 0
  gCurrAreaIndex := 0
  gFlyingCarpetState := 0
  animID := 0
  animFrame := 0
  oFaceAngleYaw := 0
  curNodeIsMario := true
  curNodeIsMirrorMario := false
  oFloor := none
  oFloorHeight := 0
  marioFloor := testSurface
  marioFloorHeight := 0

/-- A stale workspace left over from a previous build (solidity 7). -/
@[reducible] def testShadow : Shadow := ⟨⟨0, 0, 0⟩, 0, 0, testSurface, 0, 0, 7⟩

/-- An environment for a lava-shadow build: LLL area 1, a burning
Mario floor at height 0, no water, and zero cosine so the emitted
relative vertex positions are all zero. -/
@[reducible] def lavaEnv : ShadowEnv :=
  { testEnv with
      gCurrLevelNum := LEVEL_LLL
      gCurrAreaIndex := 1
      marioFloor := ⟨⟨0, 1, 0⟩, SURFACE_BURNING⟩
      coss := fun _ => 0 }

/-- The geometry produced by the lava build of lavaEnv. -/
@[reducible] def lavaGfx : ShadowGfx :=
  ⟨[⟨0, 0, 0, -480, -480, 200⟩, ⟨0, 0, 0, 512, -480, 200⟩,
    ⟨0, 0, 0, -480, 512, 200⟩, ⟨0, 0, 0, 512, 512, 200⟩], SHADOW_SHAPE_CIRCLE⟩

/-! ## Helper lemmas about dim_shadow_with_distance -/

/-- Dimming never raises the solidity. -/
lemma dim_le_solidity (u : ℕ) (d : ℚ) : dim_shadow_with_distance u d ≤ u := by
  unfold dim_shadow_with_distance
  split_ifs with h1 h2 h3
  · exact le_rfl
  · exact le_rfl
  · push_neg at h1
    exact_mod_cast Int.ofNat_le.2 (by omega)
  · push_neg at h1 h2 h3
    have hu : (121 : ℚ) ≤ u := by exact_mod_cast h1
    have hprod : (120 - (u : ℚ)) * d ≤ 0 :=
      mul_nonpos_of_nonpos_of_nonneg (by linarith) (le_of_lt h2)
    have hle : ⌊((120 - (u : ℚ)) * d) / 600 + u⌋ ≤ ⌊(u : ℚ)⌋ := by
      apply Int.floor_le_floor
      linarith
    rw [Int.floor_natCast] at hle
    exact hle

/-- For solidity at least 121 the dimmed value never drops below 120. -/
lemma dim_ge_120 (u : ℕ) (d : ℚ) (hu : 121 ≤ u) :
    (120 : ℤ) ≤ dim_shadow_with_distance u d := by
  unfold dim_shadow_with_distance
  split_ifs with h1 h2 h3
  · exact_mod_cast Int.ofNat_le.2 (by omega)
  · exact_mod_cast Int.ofNat_le.2 (by omega)
  · exact le_rfl
  · push_neg at h2 h3
    have hu' : (121 : ℚ) ≤ u := by exact_mod_cast hu
    apply Int.le_floor.2
    push_cast
    have hprod : (120 - (u : ℚ)) * 600 ≤ (120 - (u : ℚ)) * d :=
      mul_le_mul_of_nonpos_left (le_of_lt h3) (by linarith)
    linarith

/-! ## C1: scale_shadow_with_distance -/

/-- C1 counterexample: the claim asserts monotone non-increase in the
distance for every initial scale, but a negative initial scale makes
the falloff increase: at initial scale -2 the value at distance 0 is
-2 and at distance 600 it is -1. -/
theorem C1_counterexample :
    ¬ (∀ s d1 d2 : ℚ, d1 ≤ d2 →
        scale_shadow_with_distance s d2 ≤ scale_shadow_with_distance s d1) := by
  intro h
  have := h (-2) 0 600 (by norm_num)
  norm_num [scale_shadow_with_distance] at this

/-- C1 (amended): scale_shadow_with_distance is the identity for
distances at most 0, equals half the initial scale at distance 600
and beyond, is the exact linear falloff in between, and is monotone
non-increasing in the distance for every non-negative initial scale. -/
theorem C1_scale_with_distance (s d d1 d2 : ℚ) :
    (d ≤ 0 → scale_shadow_with_distance s d = s) ∧
    (scale_shadow_with_distance s 600 = s * (1/2)) ∧
    (600 ≤ d → scale_shadow_with_distance s d = s * (1/2)) ∧
    (0 < d → d < 600 → scale_shadow_with_distance s d = s * (1 - d / 1200)) ∧
    (0 ≤ s → d1 ≤ d2 →
      scale_shadow_with_distance s d2 ≤ scale_shadow_with_distance s d1) := by
  refine ⟨?_, ?_, ?_, ?_, ?_⟩
  · intro hd
    simp [scale_shadow_with_distance, hd]
  · norm_num [scale_shadow_with_distance]
  · intro hd
    have : ¬ d ≤ 0 := by linarith
    simp [scale_shadow_with_distance, this, hd]
  · intro hd0 hd600
    have h1 : ¬ d ≤ 0 := by linarith
    have h2 : ¬ 600 ≤ d := by linarith
    simp only [scale_shadow_with_distance, if_neg h1, if_neg h2]
    ring
  · intro hs h12
    unfold scale_shadow_with_distance
    split_ifs <;> nlinarith

/-- Witness for C1_scale_with_distance at concrete inputs. -/
theorem C1_scale_with_distance_witness :
    scale_shadow_with_distance 100 (-5) = 100 ∧
    scale_shadow_with_distance 100 300 = 100 * (1 - 300 / 1200) ∧
    scale_shadow_with_distance 100 450 ≤ scale_shadow_with_distance 100 150 :=
  ⟨(C1_scale_with_distance 100 (-5) 150 450).1 (by norm_num),
   (C1_scale_with_distance 100 300 150 450).2.2.2.1 (by norm_num) (by norm_num),
   (C1_scale_with_distance 100 300 150 450).2.2.2.2 (by norm_num) (by norm_num)⟩

/-! ## C2: dim_shadow_with_distance -/

/-- C2: dim_shadow_with_distance returns the solidity unchanged below
121 and for distances at most 0, returns exactly 120 from distance
600 on when the solidity is at least 121, equals the (truncated)
linear interpolation from the solidity toward 120 in between, and is
monotone non-increasing in the distance. -/
theorem C2_dim_with_distance (u : ℕ) (d d1 d2 : ℚ) :
    (u < 121 → dim_shadow_with_distance u d = u) ∧
    (d ≤ 0 → dim_shadow_with_distance u d = u) ∧
    (121 ≤ u → 600 ≤ d → dim_shadow_with_distance u d = 120) ∧
    (121 ≤ u → 0 < d → d < 600 →
      dim_shadow_with_distance u d = ⌊((120 - (u : ℚ)) * d) / 600 + u⌋) ∧
    (d1 ≤ d2 → dim_shadow_with_distance u d2 ≤ dim_shadow_with_distance u d1) := by
  refine ⟨?_, ?_, ?_, ?_, ?_⟩
  · intro hu
    simp [dim_shadow_with_distance, hu]
  · intro hd
    unfold dim_shadow_with_distance
    split_ifs <;> first | rfl | linarith
  · intro hu hd
    have h1 : ¬ u < 121 := by omega
    have h2 : ¬ d ≤ 0 := by linarith
    simp [dim_shadow_with_distance, h1, h2, hd]
  · intro hu hd0 hd600
    have h1 : ¬ u < 121 := by omega
    have h2 : ¬ d ≤ 0 := by linarith
    have h3 : ¬ 600 ≤ d := by linarith
    simp [dim_shadow_with_distance, h1, h2, h3]
  · intro h12
    by_cases hu : u < 121
    · simp [dim_shadow_with_distance, hu]
    · push_neg at hu
      by_cases hd1 : d1 ≤ 0
      · have : dim_shadow_with_distance u d1 = u := by
          unfold dim_shadow_with_distance
          split_ifs <;> first | rfl | linarith
        rw [this]
        exact dim_le_solidity u d2
      · push_neg at hd1
        by_cases hd600 : 600 ≤ d1
        · have e1 : dim_shadow_with_distance u d1 = 120 := by
            simp [dim_shadow_with_distance, Nat.not_lt.2 hu, not_le.2 hd1, hd600]
          have e2 : dim_shadow_with_distance u d2 = 120 := by
            simp [dim_shadow_with_distance, Nat.not_lt.2 hu,
              not_le.2 (lt_of_lt_of_le hd1 h12), le_trans hd600 h12]
          rw [e1, e2]
        · push_neg at hd600
          by_cases hd2600 : 600 ≤ d2
          · have e2 : dim_shadow_with_distance u d2 = 120 := by
              simp [dim_shadow_with_distance, Nat.not_lt.2 hu,
                not_le.2 (lt_of_lt_of_le hd1 h12), hd2600]
            rw [e2]
            exact dim_ge_120 u d1 hu
          · push_neg at hd2600
            have hu' : (121 : ℚ) ≤ u := by exact_mod_cast hu
            have e1 : dim_shadow_with_distance u d1 =
                ⌊((120 - (u : ℚ)) * d1) / 600 + u⌋ := by
              simp [dim_shadow_with_distance, Nat.not_lt.2 hu, not_le.2 hd1,
                not_le.2 hd600]
            have e2 : dim_shadow_with_distance u d2 =
                ⌊((120 - (u : ℚ)) * d2) / 600 + u⌋ := by
              simp [dim_shadow_with_distance, Nat.not_lt.2 hu,
                not_le.2 (lt_of_lt_of_le hd1 h12), not_le.2 hd2600]
            rw [e1, e2]
            apply Int.floor_le_floor
            nlinarith

/-- Witness for C2_dim_with_distance at concrete inputs. -/
theorem C2_dim_with_distance_witness :
    dim_shadow_with_distance 100 37 = 100 ∧
    dim_shadow_with_distance 200 (-3) = 200 ∧
    dim_shadow_with_distance 200 600 = 120 ∧
    dim_shadow_with_distance 200 150 = ⌊((120 - (200 : ℚ)) * 150) / 600 + 200⌋ ∧
    dim_shadow_with_distance 200 450 ≤ dim_shadow_with_distance 200 150 :=
  ⟨(C2_dim_with_distance 100 37 0 0).1 (by norm_num),
   (C2_dim_with_distance 200 (-3) 0 0).2.1 (by norm_num),
   (C2_dim_with_distance 200 600 0 0).2.2.1 (by norm_num) (by norm_num),
   (C2_dim_with_distance 200 150 0 0).2.2.2.1 (by norm_num) (by norm_num) (by norm_num),
   (C2_dim_with_distance 200 0 150 450).2.2.2.2 (by norm_num)⟩

/-! ## C3: linearly_interpolate_solidity_positive -/

/-- C3 counterexample: the claim asserts the positive easing sets the
solidity to 0 for every frame below the start, but a negative frame
falls through the first branch (which also requires the frame to be
non-negative) into the interpolation formula: at final solidity 100
with range 5..14, frame -1 yields -200/3, not 0. -/
theorem C3_counterexample :
    ¬ (∀ (finalSolidity : ℕ) (curr cstart cend : ℤ), cstart ≤ cend → curr < cstart →
        linearly_interpolate_solidity_positive finalSolidity curr cstart cend = 0) := by
  intro h
  have := h 100 (-1) 5 14 (by norm_num) (by norm_num)
  norm_num [linearly_interpolate_solidity_positive] at this

/-- C3 (amended): the positive easing sets the solidity to 0 for
every non-negative frame below the start, to the final solidity for
every frame past the end, is monotone non-decreasing on the frame
range when the range is non-degenerate, and is exactly 0 at the start
frame. Negative frames fall through to the interpolation formula,
and a degenerate range divides by zero in C. -/
theorem C3_ease_in (finalSolidity : ℕ) (curr c1 c2 cstart cend : ℤ) :
    (0 ≤ curr → curr < cstart →
      linearly_interpolate_solidity_positive finalSolidity curr cstart cend = 0) ∧
    (cstart ≤ cend → cend < curr →
      linearly_interpolate_solidity_positive finalSolidity curr cstart cend =
        finalSolidity) ∧
    (cstart < cend → cstart ≤ c1 → c1 ≤ c2 → c2 ≤ cend →
      linearly_interpolate_solidity_positive finalSolidity c1 cstart cend ≤
        linearly_interpolate_solidity_positive finalSolidity c2 cstart cend) ∧
    (cstart < cend →
      linearly_interpolate_solidity_positive finalSolidity cstart cstart cend = 0) := by
  refine ⟨?_, ?_, ?_, ?_⟩
  · intro h0 hlt
    simp [linearly_interpolate_solidity_positive, h0, hlt]
  · intro hse hgt
    have h1 : ¬ (0 ≤ curr ∧ curr < cstart) := by omega
    simp [linearly_interpolate_solidity_positive, h1, hgt]
  · intro hse hs1 h12 h2e
    have hb1 : ¬ (0 ≤ c1 ∧ c1 < cstart) := by omega
    have hb2 : ¬ cend < c1 := by omega
    have hc1 : ¬ (0 ≤ c2 ∧ c2 < cstart) := by omega
    have hc2 : ¬ cend < c2 := by omega
    simp only [linearly_interpolate_solidity_positive, if_neg hb1, if_neg hb2,
      if_neg hc1, if_neg hc2]
    have hden : (0 : ℚ) < (cend : ℚ) - cstart := by
      have : (cstart : ℚ) < cend := by exact_mod_cast hse
      linarith
    have hnum : (finalSolidity : ℚ) * ((c1 : ℚ) - cstart) ≤
        (finalSolidity : ℚ) * ((c2 : ℚ) - cstart) := by
      apply mul_le_mul_of_nonneg_left _ (Nat.cast_nonneg _)
      have : (c1 : ℚ) ≤ c2 := by exact_mod_cast h12
      linarith
    rw [div_le_div_iff hden hden]
    nlinarith
  · intro hse
    have hb1 : ¬ (0 ≤ cstart ∧ cstart < cstart) := by omega
    have hb2 : ¬ cend < cstart := by omega
    simp [linearly_interpolate_solidity_positive, hb1, hb2]

/-- Witness for C3_ease_in at concrete inputs (the fast-ledge-grab
frame range 5..14 used by the caller). -/
theorem C3_ease_in_witness :
    linearly_interpolate_solidity_positive 100 3 5 14 = 0 ∧
    linearly_interpolate_solidity_positive 100 20 5 14 = 100 ∧
    linearly_interpolate_solidity_positive 100 7 5 14 ≤
      linearly_interpolate_solidity_positive 100 9 5 14 ∧
    linearly_interpolate_solidity_positive 100 5 5 14 = 0 :=
  ⟨(C3_ease_in 100 3 7 9 5 14).1 (by norm_num) (by norm_num),
   (C3_ease_in 100 20 7 9 5 14).2.1 (by norm_num) (by norm_num),
   (C3_ease_in 100 3 7 9 5 14).2.2.1 (by norm_num) (by norm_num) (by norm_num)
     (by norm_num),
   (C3_ease_in 100 3 7 9 5 14).2.2.2 (by norm_num)⟩

/-! ## C4: linearly_interpolate_solidity_negative -/

/-- C4 counterexample: the claim quantifies over every end frame,
including 0, where it demands the value at frame 0 be both the
initial solidity and (as the end frame) 0 at once; at initial
solidity 100 this is contradictory (in C the degenerate range also
divides zero by zero). -/
theorem C4_counterexample :
    ¬ (∀ (initialSolidity : ℕ) (cend : ℤ),
        linearly_interpolate_solidity_negative initialSolidity 0 0 cend =
          initialSolidity ∧
        linearly_interpolate_solidity_negative initialSolidity cend 0 cend = 0) := by
  intro h
  have h1 := (h 100 0).1
  have h2 := (h 100 0).2
  rw [h1] at h2
  norm_num at h2

/-- C4 (amended): for a positive end frame and start 0, the negative
easing yields the initial solidity at frame 0, zero at the end frame,
zero for every frame outside the range on either side (in particular
for negative frames, not the initial solidity), and the exact linear
ramp in between. -/
theorem C4_ease_out (initialSolidity : ℕ) (curr cend : ℤ) (hpos : 0 < cend) :
    linearly_interpolate_solidity_negative initialSolidity 0 0 cend =
      initialSolidity ∧
    linearly_interpolate_solidity_negative initialSolidity cend 0 cend = 0 ∧
    (curr < 0 → linearly_interpolate_solidity_negative initialSolidity curr 0 cend = 0) ∧
    (cend < curr →
      linearly_interpolate_solidity_negative initialSolidity curr 0 cend = 0) ∧
    (0 ≤ curr → curr ≤ cend →
      linearly_interpolate_solidity_negative initialSolidity curr 0 cend =
        (initialSolidity : ℚ) * (((cend : ℚ) - curr) / cend)) := by
  have hcend : ((cend : ℤ) : ℚ) ≠ 0 := by
    exact_mod_cast (by omega : cend ≠ 0)
  refine ⟨?_, ?_, ?_, ?_, ?_⟩
  · have hin : (0 : ℤ) ≤ 0 ∧ (0 : ℤ) ≤ cend := by omega
    simp [linearly_interpolate_solidity_negative, hin.1, hin.2]
  · have hin : 0 ≤ cend ∧ cend ≤ cend := by omega
    simp only [linearly_interpolate_solidity_negative, if_pos hin, sub_zero]
    rw [div_self hcend]
    ring
  · intro hc
    have : ¬ (0 ≤ curr ∧ curr ≤ cend) := by omega
    simp [linearly_interpolate_solidity_negative, this]
  · intro hc
    have : ¬ (0 ≤ curr ∧ curr ≤ cend) := by omega
    simp [linearly_interpolate_solidity_negative, this]
  · intro h0 hce
    have hin : 0 ≤ curr ∧ curr ≤ cend := ⟨h0, hce⟩
    simp only [linearly_interpolate_solidity_negative, if_pos hin, sub_zero]
    field_simp

/-- Witness for C4_ease_out at concrete inputs (the climb-down-ledge
frame range 0..5 used by the caller). -/
theorem C4_ease_out_witness :
    linearly_interpolate_solidity_negative 100 0 0 5 = 100 ∧
    linearly_interpolate_solidity_negative 100 5 0 5 = 0 ∧
    linearly_interpolate_solidity_negative 100 (-3) 0 5 = 0 ∧
    linearly_interpolate_solidity_negative 100 9 0 5 = 0 ∧
    linearly_interpolate_solidity_negative 100 2 0 5 =
      (100 : ℚ) * (((5 : ℚ) - 2) / 5) :=
  ⟨(C4_ease_out 100 (-3) 5 (by norm_num)).1,
   (C4_ease_out 100 (-3) 5 (by norm_num)).2.1,
   (C4_ease_out 100 (-3) 5 (by norm_num)).2.2.1 (by norm_num),
   (C4_ease_out 100 9 5 (by norm_num)).2.2.2.1 (by norm_num),
   (C4_ease_out 100 2 5 (by norm_num)).2.2.2.2 (by norm_num) (by norm_num)⟩

/-! ## C7: vertex corner mapping -/

/-- C7: the vertex-index-to-corner mapping of get_vertex_coords sends
0, 1, 2, 3 to the four corners (-1,-1), (1,-1), (-1,1), (1,1) in
order (a bijection onto the corner set), and get_texture_coords
assigns each index the same corner of the quad, measured by the signs
of its coordinates. -/
theorem C7_vertex_corner_mapping :
    get_vertex_coords 0 = (-1, -1) ∧ get_vertex_coords 1 = (1, -1) ∧
    get_vertex_coords 2 = (-1, 1) ∧ get_vertex_coords 3 = (1, 1) ∧
    corner_sign (get_texture_coords 0) = get_vertex_coords 0 ∧
    corner_sign (get_texture_coords 1) = get_vertex_coords 1 ∧
    corner_sign (get_texture_coords 2) = get_vertex_coords 2 ∧
    corner_sign (get_texture_coords 3) = get_vertex_coords 3 := by
  decide

/-! ## C5: the water-box branch of the resolve step -/

/-- C5 counterexample: the claim's water-box condition (parent at or
above the water level, floor at or below it) can hold while the code
takes the failure path instead: with the raw water level -20000 the
sentinel clamp in get_water_level_below_shadow suppresses the
water-box flag, and the resolve step then rejects the build without
switching floors or forcing solidity 200, even though a distinct
water-surface floor object was returned. -/
theorem C5_counterexample :
    ((0 : ℚ) ≥ -20000 ∧
      ({ testShadow with floorHeight := -20000 } : Shadow).floorHeight ≤ -20000) ∧
    (({ testEnv with
        find_water_level_and_floor := fun _ _ => (-20000, some testSurface2)
      } : ShadowEnv).find_water_level_and_floor 0 0).2 = some testSurface2 ∧
    (init_shadow_resolve
      { testEnv with
        find_water_level_and_floor := fun _ _ => (-20000, some testSurface2) }
      { testShadow with floorHeight := -20000 } SHADOW_FLAGS_NONE 0 0 0).fail = true ∧
    (init_shadow_resolve
      { testEnv with
        find_water_level_and_floor := fun _ _ => (-20000, some testSurface2) }
      { testShadow with floorHeight := -20000 } SHADOW_FLAGS_NONE 0 0 0).st.solidity
      ≠ 200 ∧
    (init_shadow_resolve
      { testEnv with
        find_water_level_and_floor := fun _ _ => (-20000, some testSurface2) }
      { testShadow with floorHeight := -20000 } SHADOW_FLAGS_NONE 0 0 0).st.floor
      ≠ testSurface2 := by
  decide

/-- C5 (amended): whenever the queried water level is not below the
lower-bound sentinel, the parent is at or above it, and the prior
floor height is at or below it, the resolve step succeeds and adopts
the water level as the floor height; if the query returned a distinct
water-surface floor object the workspace floor is switched to it, the
waterBox flag is cleared, the waterSurface flag is set and the
solidity is forced to exactly 200; otherwise the floor's real normal
is discarded for the flat upward normal (0, 1, 0). -/
theorem C5_water_resolve (env : ShadowEnv) (st0 : Shadow) (flags0 : ShadowFlags)
    (xPos yPos zPos : ℚ)
    (hwl : FLOOR_LOWER_LIMIT_MISC ≤ (env.find_water_level_and_floor xPos zPos).1)
    (hparent : yPos ≥ (env.find_water_level_and_floor xPos zPos).1)
    (hfloor : st0.floorHeight ≤ (env.find_water_level_and_floor xPos zPos).1) :
    (init_shadow_resolve env st0 flags0 xPos yPos zPos).fail = false ∧
    (init_shadow_resolve env st0 flags0 xPos yPos zPos).st.floorHeight =
      (env.find_water_level_and_floor xPos zPos).1 ∧
    (∀ wf, (env.find_water_level_and_floor xPos zPos).2 = some wf →
      (init_shadow_resolve env st0 flags0 xPos yPos zPos).st.floor = wf ∧
      (init_shadow_resolve env st0 flags0 xPos yPos zPos).flags.waterBox = false ∧
      (init_shadow_resolve env st0 flags0 xPos yPos zPos).flags.waterSurface = true ∧
      (init_shadow_resolve env st0 flags0 xPos yPos zPos).st.solidity = 200) ∧
    ((env.find_water_level_and_floor xPos zPos).2 = none →
      (init_shadow_resolve env st0 flags0 xPos yPos zPos).n = ⟨0, 1, 0⟩) := by
  have hnotlt : ¬ (env.find_water_level_and_floor xPos zPos).1 <
      FLOOR_LOWER_LIMIT_MISC := not_lt.2 hwl
  cases hwf : (env.find_water_level_and_floor xPos zPos).2 with
  | none =>
      simp [init_shadow_resolve, get_water_level_below_shadow, hnotlt, hparent,
        hfloor, hwf]
  | some wf =>
      simp [init_shadow_resolve, get_water_level_below_shadow, hnotlt, hparent,
        hfloor, hwf]

/-- Witness for C5_water_resolve: a concrete build over a water box
with a distinct water-surface floor. -/
theorem C5_water_resolve_witness :
    (init_shadow_resolve
      { testEnv with find_water_level_and_floor := fun _ _ => (-5, some testSurface2) }
      { testShadow with floorHeight := -6 } SHADOW_FLAGS_NONE 0 0 0).fail = false ∧
    (init_shadow_resolve
      { testEnv with find_water_level_and_floor := fun _ _ => (-5, some testSurface2) }
      { testShadow with floorHeight := -6 } SHADOW_FLAGS_NONE 0 0 0).st.floor =
      testSurface2 ∧
    (init_shadow_resolve
      { testEnv with find_water_level_and_floor := fun _ _ => (-5, some testSurface2) }
      { testShadow with floorHeight := -6 } SHADOW_FLAGS_NONE 0 0 0).flags.waterBox =
      false ∧
    (init_shadow_resolve
      { testEnv with find_water_level_and_floor := fun _ _ => (-5, some testSurface2) }
      { testShadow with floorHeight := -6 } SHADOW_FLAGS_NONE 0 0 0).flags.waterSurface
      = true ∧
    (init_shadow_resolve
      { testEnv with find_water_level_and_floor := fun _ _ => (-5, some testSurface2) }
      { testShadow with floorHeight := -6 } SHADOW_FLAGS_NONE 0 0 0).st.solidity =
      200 := by
  have h := C5_water_resolve
    { testEnv with find_water_level_and_floor := fun _ _ => (-5, some testSurface2) }
    { testShadow with floorHeight := -6 } SHADOW_FLAGS_NONE 0 0 0
    (by norm_num [FLOOR_LOWER_LIMIT_MISC]) (by norm_num) (by norm_num)
  obtain ⟨h1, h2, h3, h4⟩ := h
  obtain ⟨g1, g2, g3, g4⟩ := h3 testSurface2 rfl
  exact ⟨h1, g1, g2, g3, g4⟩

/-! ## Helper lemmas about the resolve step and the strategies -/

/-- When the water-box condition does not hold,
get_water_level_below_shadow leaves the flags unchanged. -/
lemma water_flags_unchanged (env : ShadowEnv) (st : Shadow) (flags : ShadowFlags)
    (hnw : ¬ (FLOOR_LOWER_LIMIT_MISC ≤
          (env.find_water_level_and_floor st.parentPos.x st.parentPos.z).1 ∧
        st.parentPos.y ≥
          (env.find_water_level_and_floor st.parentPos.x st.parentPos.z).1 ∧
        st.floorHeight ≤
          (env.find_water_level_and_floor st.parentPos.x st.parentPos.z).1)) :
    (get_water_level_below_shadow env st flags).2.1 = flags := by
  simp only [get_water_level_below_shadow]
  split_ifs with h1 h2
  · rfl
  · exact absurd ⟨not_lt.1 h1, h2.1, h2.2⟩ hnw
  · rfl

/-- Outside a water box, the resolve step fails exactly on a
non-upward normal or a floor height below the sentinel. -/
lemma resolve_fail_iff (env : ShadowEnv) (st0 : Shadow) (flags0 : ShadowFlags)
    (x y z : ℚ) (hwb : flags0.waterBox = false)
    (hnw : ¬ (FLOOR_LOWER_LIMIT_MISC ≤ (env.find_water_level_and_floor x z).1 ∧
        y ≥ (env.find_water_level_and_floor x z).1 ∧
        st0.floorHeight ≤ (env.find_water_level_and_floor x z).1)) :
    ((init_shadow_resolve env st0 flags0 x y z).fail = true ↔
      (st0.floor.normal.y ≤ 0 ∨ st0.floorHeight < FLOOR_LOWER_LIMIT_MISC)) := by
  have hfl : (get_water_level_below_shadow env
      { st0 with parentPos := ⟨x, y, z⟩ } flags0).2.1 = flags0 := by
    apply water_flags_unchanged
    simpa using hnw
  simp only [init_shadow_resolve]
  rw [hfl, hwb]
  simp only [Bool.false_eq_true, if_false]
  split_ifs with h
  · simp [h]
  · simp [h]

/-- The animation corrector writes only the solidity field. -/
lemma anim_preserves (env : ShadowEnv) (st : Shadow) (sol : ℕ) :
    (correct_shadow_solidity_for_animations env st sol).2.floorHeight =
      st.floorHeight ∧
    (correct_shadow_solidity_for_animations env st sol).2.floor = st.floor := by
  unfold correct_shadow_solidity_for_animations
  split_ifs <;> exact ⟨rfl, rfl⟩

/-- Outside a water box, init_shadow fails when the floor height is
below the sentinel. -/
lemma init_fail_below_limit (env : ShadowEnv) (st : Shadow) (flags : ShadowFlags)
    (x y z : ℚ) (sc : ℤ) (ow : ℕ) (hwb : flags.waterBox = false)
    (hfh : st.floorHeight < FLOOR_LOWER_LIMIT_MISC)
    (hnw : ¬ (FLOOR_LOWER_LIMIT_MISC ≤ (env.find_water_level_and_floor x z).1 ∧
        y ≥ (env.find_water_level_and_floor x z).1 ∧
        st.floorHeight ≤ (env.find_water_level_and_floor x z).1)) :
    (init_shadow env st flags x y z sc ow).1 = true := by
  have h := (resolve_fail_iff env st flags x y z hwb hnw).2 (Or.inr hfh)
  simp [init_shadow, h]

/-- get_shadow_height_solidity rejects a floor height below the
sentinel before consulting the water level. -/
lemma gshs_fail_below_limit (env : ShadowEnv) (st : Shadow) (flags : ShadowFlags)
    (x y z : ℚ) (sol : ℕ) (hfh : st.floorHeight < FLOOR_LOWER_LIMIT_MISC) :
    get_shadow_height_solidity env st flags x y z sol =
      (true, st.floorHeight, sol, flags) := by
  simp [get_shadow_height_solidity, hfh]

/-- The player strategy produces no geometry when the floor height is
below the sentinel outside a water box. -/
lemma player_none_below_limit (env : ShadowEnv) (st1 : Shadow) (flags1 : ShadowFlags)
    (x y z : ℚ) (sc : ℤ) (sol : ℕ) (hwb : flags1.waterBox = false)
    (hfh : st1.floorHeight < FLOOR_LOWER_LIMIT_MISC)
    (hnw : ¬ (FLOOR_LOWER_LIMIT_MISC ≤ (env.find_water_level_and_floor x z).1 ∧
        y ≥ (env.find_water_level_and_floor x z).1 ∧
        st1.floorHeight ≤ (env.find_water_level_and_floor x z).1)) :
    (create_shadow_player env st1 flags1 x y z sc sol).1 = none := by
  have hfh2 := (anim_preserves env st1 sol).1
  have hflwb : (player_carpet_flags env st1 flags1).waterBox = false := by
    unfold player_carpet_flags
    split_ifs <;> simp [hwb]
  have hinit : ∀ ow : ℕ,
      (init_shadow env (correct_shadow_solidity_for_animations env st1 sol).2
        (player_carpet_flags env st1 flags1) x y z sc ow).1 = true := by
    intro ow
    apply init_fail_below_limit env _ _ x y z sc ow hflwb
    · rw [hfh2]; exact hfh
    · rw [hfh2]; exact hnw
  by_cases hns :
      (correct_shadow_solidity_for_animations env st1 sol).1 = SHADOW_SOLIDITY_NO_SHADOW
  · simp [create_shadow_player, hns]
  · simp [create_shadow_player, create_shadow_player_post, hns, hinit]

/-- The plain circle strategy produces no geometry when the floor
height is below the sentinel outside a water box. -/
lemma circle_none_below_limit (env : ShadowEnv) (st1 : Shadow) (flags1 : ShadowFlags)
    (x y z : ℚ) (sc : ℤ) (sol : ℕ) (hwb : flags1.waterBox = false)
    (hfh : st1.floorHeight < FLOOR_LOWER_LIMIT_MISC)
    (hnw : ¬ (FLOOR_LOWER_LIMIT_MISC ≤ (env.find_water_level_and_floor x z).1 ∧
        y ≥ (env.find_water_level_and_floor x z).1 ∧
        st1.floorHeight ≤ (env.find_water_level_and_floor x z).1)) :
    (create_shadow_circle env st1 flags1 x y z sc sol).1 = none := by
  have hinit := init_fail_below_limit env st1 flags1 x y z sc sol hwb hfh hnw
  simp [create_shadow_circle, hinit]

/-- The square strategy produces no geometry when the floor height is
below the sentinel. -/
lemma square_none_below_limit (env : ShadowEnv) (st : Shadow) (flags : ShadowFlags)
    (x y z : ℚ) (sc : ℤ) (sol : ℕ) (stype : ℤ)
    (hfh : st.floorHeight < FLOOR_LOWER_LIMIT_MISC) :
    (create_shadow_square env st flags x y z sc sol stype).1 = none := by
  simp [create_shadow_square, gshs_fail_below_limit env st flags x y z sol hfh]

/-- The hardcoded-rectangle strategy rejects, without reaching the
table read, when the floor height is below the sentinel. -/
lemma hardcoded_none_below_limit (env : ShadowEnv) (st : Shadow) (flags : ShadowFlags)
    (x y z : ℚ) (sc : ℤ) (sol : ℕ) (stype : ℤ)
    (hfh : st.floorHeight < FLOOR_LOWER_LIMIT_MISC) :
    create_shadow_hardcoded_rectangle env st flags x y z sc sol stype =
      some (none, flags) := by
  simp [create_shadow_hardcoded_rectangle,
    gshs_fail_below_limit env st flags x y z sol hfh]

/-! ## C6: rejection of degenerate floors -/

/-- C6: outside a water box the resolve step fails exactly when the
floor normal Y component is non-positive or the floor height is
below the lower-bound sentinel; and end to end, every
create_shadow_below_xyz build whose resolved floor height is below
the sentinel and which is not over a water box produces no
geometry. -/
theorem C6_reject_degenerate_floor :
    (∀ (env : ShadowEnv) (st0 : Shadow) (flags0 : ShadowFlags) (x y z : ℚ),
      flags0.waterBox = false →
      ¬ (FLOOR_LOWER_LIMIT_MISC ≤ (env.find_water_level_and_floor x z).1 ∧
          y ≥ (env.find_water_level_and_floor x z).1 ∧
          st0.floorHeight ≤ (env.find_water_level_and_floor x z).1) →
      ((init_shadow_resolve env st0 flags0 x y z).fail = true ↔
        (st0.floor.normal.y ≤ 0 ∨ st0.floorHeight < FLOOR_LOWER_LIMIT_MISC))) ∧
    (∀ (env : ShadowEnv) (st0 st1 : Shadow) (flags0 : ShadowFlags) (x y z : ℚ)
        (scale : ℤ) (sol : ℕ) (stype : ℤ),
      resolved_floor env st0 x y z = some st1 →
      st1.floorHeight < FLOOR_LOWER_LIMIT_MISC →
      ¬ (FLOOR_LOWER_LIMIT_MISC ≤ (env.find_water_level_and_floor x z).1 ∧
          y ≥ (env.find_water_level_and_floor x z).1 ∧
          st1.floorHeight ≤ (env.find_water_level_and_floor x z).1) →
      (create_shadow_below_xyz env st0 flags0 x y z scale sol stype).map
        (fun r => r.1) = some none) := by
  constructor
  · intro env st0 flags0 x y z hwb hnw
    exact resolve_fail_iff env st0 flags0 x y z hwb hnw
  · intro env st0 st1 flags0 x y z scale sol stype hres hfh hnw
    simp only [create_shadow_below_xyz, hres, shadow_build_with_floor, shadow_dispatch]
    split_ifs with t1 t2 t3
    · simp [player_none_below_limit env st1
        { SHADOW_FLAGS_NONE with iceCarpet := st1.floor.stype = SURFACE_ICE }
        x y z scale sol rfl hfh hnw]
    · simp [circle_none_below_limit env st1
        { SHADOW_FLAGS_NONE with iceCarpet := st1.floor.stype = SURFACE_ICE }
        x y z scale sol rfl hfh hnw]
    · simp [square_none_below_limit env st1
        { SHADOW_FLAGS_NONE with iceCarpet := st1.floor.stype = SURFACE_ICE }
        x y z scale sol stype hfh]
    · simp [hardcoded_none_below_limit env st1
        { SHADOW_FLAGS_NONE with iceCarpet := st1.floor.stype = SURFACE_ICE }
        x y z scale sol stype hfh]

/-- Witness for C6_reject_degenerate_floor: a build over a floor at
height -20000 with no water. -/
theorem C6_reject_degenerate_floor_witness :
    ((init_shadow_resolve { testEnv with marioFloorHeight := -20000 }
        { testShadow with floorHeight := -20000 } SHADOW_FLAGS_NONE 0 0 0).fail =
          true ↔
      (({ testShadow with floorHeight := -20000 } : Shadow).floor.normal.y ≤ 0 ∨
        ({ testShadow with floorHeight := -20000 } : Shadow).floorHeight <
          FLOOR_LOWER_LIMIT_MISC)) ∧
    (create_shadow_below_xyz { testEnv with marioFloorHeight := -20000 } testShadow
        SHADOW_FLAGS_NONE 0 0 0 100 50 SHADOW_CIRCLE).map (fun r => r.1) =
      some none := by
  constructor
  · exact (C6_reject_degenerate_floor).1 { testEnv with marioFloorHeight := -20000 }
      { testShadow with floorHeight := -20000 } SHADOW_FLAGS_NONE 0 0 0 rfl
      (by norm_num [testEnv, FLOOR_LOWER_LIMIT_MISC])
  · exact (C6_reject_degenerate_floor).2 { testEnv with marioFloorHeight := -20000 }
      testShadow { testShadow with floorHeight := -20000 } SHADOW_FLAGS_NONE 0 0 0
      100 50 SHADOW_CIRCLE rfl
      (by norm_num [testShadow, FLOOR_LOWER_LIMIT_MISC])
      (by norm_num [testEnv, testShadow, FLOOR_LOWER_LIMIT_MISC])

/-! ## C8: workspace reuse and the output of a build -/

lemma resolve_congr (env : ShadowEnv) (stA stB : Shadow) (fl : ShadowFlags)
    (x y z : ℚ) (hf : stA.floor = stB.floor) (hh : stA.floorHeight = stB.floorHeight) :
    (init_shadow_resolve env stA fl x y z).fail =
      (init_shadow_resolve env stB fl x y z).fail ∧
    (init_shadow_resolve env stA fl x y z).flags =
      (init_shadow_resolve env stB fl x y z).flags ∧
    (init_shadow_resolve env stA fl x y z).n =
      (init_shadow_resolve env stB fl x y z).n ∧
    (init_shadow_resolve env stA fl x y z).st.parentPos =
      (init_shadow_resolve env stB fl x y z).st.parentPos ∧
    (init_shadow_resolve env stA fl x y z).st.floorHeight =
      (init_shadow_resolve env stB fl x y z).st.floorHeight ∧
    (init_shadow_resolve env stA fl x y z).st.floor =
      (init_shadow_resolve env stB fl x y z).st.floor ∧
    ((init_shadow_resolve env stA fl x y z).st.solidity =
        (init_shadow_resolve env stB fl x y z).st.solidity ∨
      ((init_shadow_resolve env stA fl x y z).st.solidity = stA.solidity ∧
        (init_shadow_resolve env stB fl x y z).st.solidity = stB.solidity)) := by
  simp only [init_shadow_resolve, get_water_level_below_shadow, hf, hh]
  cases hq : (env.find_water_level_and_floor x z).2 with
  | none => split_ifs <;> simp_all
  | some wf => split_ifs <;> simp_all
end SM64Shadow

namespace SM64Shadow
lemma finish_congr (env : ShadowEnv) (rA rB : ResolveOut) (y : ℚ) (sc : ℤ) (ow : ℕ)
    (e2 : rA.flags = rB.flags) (e3 : rA.n = rB.n)
    (e4 : rA.st.parentPos = rB.st.parentPos)
    (e5 : rA.st.floorHeight = rB.st.floorHeight)
    (e6 : rA.st.floor = rB.st.floor)
    (es : ow ≠ 0 ∨ rA.st.solidity = rB.st.solidity) :
    init_shadow_finish env rA y sc ow = init_shadow_finish env rB y sc ow := by
  by_cases how : ow ≠ 0
  · simp only [init_shadow_finish, if_pos how, e2, e3, e4, e5, e6]
  · have hse : rA.st.solidity = rB.st.solidity := es.resolve_left (by simpa using how)
    simp only [init_shadow_finish, if_neg how, e2, e3, e4, e5, e6, hse]

lemma init_shadow_congr (env : ShadowEnv) (stA stB : Shadow) (fl : ShadowFlags)
    (x y z : ℚ) (sc : ℤ) (ow : ℕ)
    (hf : stA.floor = stB.floor) (hh : stA.floorHeight = stB.floorHeight)
    (hs : ow ≠ 0 ∨ stA.solidity = stB.solidity) :
    (init_shadow env stA fl x y z sc ow).1 = (init_shadow env stB fl x y z sc ow).1 ∧
    (init_shadow env stA fl x y z sc ow).2.2 =
      (init_shadow env stB fl x y z sc ow).2.2 ∧
    ((init_shadow env stA fl x y z sc ow).1 = false →
      (init_shadow env stA fl x y z sc ow).2.1 =
        (init_shadow env stB fl x y z sc ow).2.1) := by
  obtain ⟨e1, e2, e3, e4, e5, e6, e7⟩ := resolve_congr env stA stB fl x y z hf hh
  have hfin := finish_congr env (init_shadow_resolve env stA fl x y z)
      (init_shadow_resolve env stB fl x y z) y sc ow e2 e3 e4 e5 e6 (by
        rcases hs with h | h
        · exact Or.inl h
        · rcases e7 with e | ⟨ea, eb⟩
          · exact Or.inr e
          · exact Or.inr (by rw [ea, eb, h]))
  simp only [init_shadow, e1, e2, hfin]
  refine ⟨?_, ?_, ?_⟩
  · split_ifs <;> rfl
  · split_ifs <;> rfl
  · intro hfail
    split_ifs at hfail ⊢
    rfl

lemma circle_output_congr (env : ShadowEnv) (stA stB : Shadow) (fl : ShadowFlags)
    (x y z : ℚ) (sc : ℤ) (sol : ℕ)
    (hf : stA.floor = stB.floor) (hh : stA.floorHeight = stB.floorHeight)
    (hsol : sol ≠ 0) :
    (create_shadow_circle env stA fl x y z sc sol).1 =
      (create_shadow_circle env stB fl x y z sc sol).1 := by
  obtain ⟨i1, i2, i3⟩ := init_shadow_congr env stA stB fl x y z sc sol hf hh (Or.inl hsol)
  simp only [create_shadow_circle, i1]
  split_ifs with h1 h2
  · rfl
  · rfl
  · have hA : (init_shadow env stA fl x y z sc sol).1 = false := by
      rw [i1]
      simpa using h1
    rw [i3 hA, i2]

lemma post_output_congr (env : ShadowEnv) (a2A a2B : Shadow) (flC : ShadowFlags)
    (x y z : ℚ) (sc : ℤ) (ow : ℕ)
    (hf : a2A.floor = a2B.floor) (hh : a2A.floorHeight = a2B.floorHeight)
    (hs : ow ≠ 0 ∨ a2A.solidity = a2B.solidity) :
    (create_shadow_player_post env a2A flC x y z sc ow).1 =
      (create_shadow_player_post env a2B flC x y z sc ow).1 := by
  obtain ⟨i1, i2, i3⟩ := init_shadow_congr env a2A a2B flC x y z sc ow hf hh hs
  simp only [create_shadow_player_post, i1]
  split_ifs with h1 h2
  · rfl
  · rfl
  · have hA : (init_shadow env a2A flC x y z sc ow).1 = false := by
      rw [i1]
      simpa using h1
    rw [i3 hA, i2]

lemma player_output_congr (env : ShadowEnv) (stA stB : Shadow) (fl : ShadowFlags)
    (x y z : ℚ) (sc : ℤ) (sol : ℕ)
    (hf : stA.floor = stB.floor) (hh : stA.floorHeight = stB.floorHeight)
    (hsol : sol ≠ 0) :
    (create_shadow_player env stA fl x y z sc sol).1 =
      (create_shadow_player env stB fl x y z sc sol).1 := by
  have hc : player_carpet_flags env stA fl = player_carpet_flags env stB fl := by
    unfold player_carpet_flags
    rw [hf]
  have ha1 : (correct_shadow_solidity_for_animations env stA sol).1 =
      (correct_shadow_solidity_for_animations env stB sol).1 := by
    unfold correct_shadow_solidity_for_animations
    split_ifs <;> rfl
  have hafl : (correct_shadow_solidity_for_animations env stA sol).2.floor =
      (correct_shadow_solidity_for_animations env stB sol).2.floor := by
    rw [(anim_preserves env stA sol).2, (anim_preserves env stB sol).2, hf]
  have hah : (correct_shadow_solidity_for_animations env stA sol).2.floorHeight =
      (correct_shadow_solidity_for_animations env stB sol).2.floorHeight := by
    rw [(anim_preserves env stA sol).1, (anim_preserves env stB sol).1, hh]
  have heq : (correct_shadow_solidity_for_animations env stA sol).1 =
        SHADOW_SOILDITY_ALREADY_SET →
      (correct_shadow_solidity_for_animations env stA sol).2.solidity =
        (correct_shadow_solidity_for_animations env stB sol).2.solidity := by
    unfold correct_shadow_solidity_for_animations
    split_ifs <;> intro h <;>
      first
        | rfl
        | simp [SHADOW_SOLIDITY_NO_SHADOW, SHADOW_SOILDITY_ALREADY_SET,
            SHADOW_SOLIDITY_NOT_YET_SET] at h
  simp only [create_shadow_player, hc, ha1]
  split_ifs with h1 h2
  · rfl
  · exact post_output_congr env _ _ _ x y z sc _ hafl hah
      (Or.inr (heq (ha1.trans h2)))
  · exact post_output_congr env _ _ _ x y z sc _ hafl hah (Or.inl hsol)

lemma square_output_congr (env : ShadowEnv) (stA stB : Shadow) (fl : ShadowFlags)
    (x y z : ℚ) (sc : ℤ) (sol : ℕ) (stype : ℤ)
    (hh : stA.floorHeight = stB.floorHeight) :
    (create_shadow_square env stA fl x y z sc sol stype).1 =
      (create_shadow_square env stB fl x y z sc sol stype).1 := by
  simp only [create_shadow_square, get_shadow_height_solidity, hh]

lemma hardcoded_congr (env : ShadowEnv) (stA stB : Shadow) (fl : ShadowFlags)
    (x y z : ℚ) (sc : ℤ) (sol : ℕ) (stype : ℤ)
    (hh : stA.floorHeight = stB.floorHeight) :
    create_shadow_hardcoded_rectangle env stA fl x y z sc sol stype =
      create_shadow_hardcoded_rectangle env stB fl x y z sc sol stype := by
  simp only [create_shadow_hardcoded_rectangle, get_shadow_height_solidity, hh]

lemma build_output_congr (env : ShadowEnv) (s1 s2 : Shadow) (x y z : ℚ)
    (sc : ℤ) (sol : ℕ) (stype : ℤ)
    (hf : s1.floor = s2.floor) (hh : s1.floorHeight = s2.floorHeight)
    (hsol : sol ≠ 0) :
    (shadow_build_with_floor env s1 x y z sc sol stype).map (fun r => r.1) =
      (shadow_build_with_floor env s2 x y z sc sol stype).map (fun r => r.1) := by
  have hfl : ({ SHADOW_FLAGS_NONE with
      iceCarpet := s1.floor.stype = SURFACE_ICE } : ShadowFlags) =
      { SHADOW_FLAGS_NONE with iceCarpet := s2.floor.stype = SURFACE_ICE } := by
    rw [hf]
  simp only [shadow_build_with_floor, shadow_dispatch, hfl]
  split_ifs with t1 t2 t3
  · simpa using player_output_congr env s1 s2 _ x y z sc sol hf hh hsol
  · simpa using circle_output_congr env s1 s2 _ x y z sc sol hf hh hsol
  · simpa using square_output_congr env s1 s2 _ x y z sc sol stype hh
  · rw [hardcoded_congr env s1 s2 _ x y z sc sol stype hh]
    cases create_shadow_hardcoded_rectangle env s2
      { SHADOW_FLAGS_NONE with iceCarpet := s2.floor.stype = SURFACE_ICE }
      x y z sc sol stype <;> rfl

lemma resolved_floor_congr (env : ShadowEnv) (stA stB : Shadow) (x y z : ℚ) :
    (resolved_floor env stA x y z = none ∧ resolved_floor env stB x y z = none) ∨
    (∃ s1 s2, resolved_floor env stA x y z = some s1 ∧
      resolved_floor env stB x y z = some s2 ∧
      s1.floor = s2.floor ∧ s1.floorHeight = s2.floorHeight) := by
  unfold resolved_floor
  split_ifs with h1 h2
  · exact Or.inr ⟨_, _, rfl, rfl, rfl, rfl⟩
  · obtain ⟨v, hv⟩ := Option.isSome_iff_exists.mp h2.2
    exact Or.inr ⟨_, _, rfl, rfl, by simp [hv], rfl⟩
  · cases hq : (env.find_floor x y z).2 with
    | none => exact Or.inl ⟨by simp [hq], by simp [hq]⟩
    | some f =>
        exact Or.inr ⟨{ stA with floor := f, floorHeight := (env.find_floor x y z).1 },
          { stB with floor := f, floorHeight := (env.find_floor x y z).1 },
          by simp [hq], by simp [hq], rfl, rfl⟩

/-- C8 counterexample: the claim says the workspace is entirely
overwritten on every invocation so that no state persists into the
next build's output; but a circle build requested with solidity 0
(and no water box) never writes the solidity field, and the stale
value reaches the output alpha: two identical builds from workspaces
holding stale solidity 50 and 77 produce different geometry. -/
theorem C8_counterexample :
    (create_shadow_below_xyz testEnv { testShadow with solidity := 50 }
        SHADOW_FLAGS_NONE 0 0 0 100 0 SHADOW_CIRCLE).map (fun r => r.1) ≠
    (create_shadow_below_xyz testEnv { testShadow with solidity := 77 }
        SHADOW_FLAGS_NONE 0 0 0 100 0 SHADOW_CIRCLE).map (fun r => r.1) := by
  norm_num [create_shadow_below_xyz, resolved_floor, shadow_build_with_floor,
    shadow_dispatch, create_shadow_circle, init_shadow, init_shadow_resolve,
    get_water_level_below_shadow, init_shadow_finish, make_shadow_vertex,
    calculate_vertex_xyz, get_vertex_coords, make_shadow_vertex_at_xyz,
    get_texture_coords, roundf, s32_to_u8, f32_to_u8, scale_shadow_with_distance,
    dim_shadow_with_distance, testEnv, testShadow, testSurface,
    FLOOR_LOWER_LIMIT_MISC, SHADOW_FLAGS_NONE, SURFACE_ICE, SHADOW_CIRCLE_PLAYER,
    SHADOW_CIRCLE, SHADOW_SQUARE_PERMANENT, SHADOW_SQUARE_SCALABLE,
    SHADOW_SQUARE_TOGGLABLE, SHADOW_SHAPE_CIRCLE]

/-- C8 (amended): whenever the requested solidity is nonzero, the
output of create_shadow_below_xyz is independent of the prior
workspace and flag state: every workspace field the output depends on
is re-initialized during the build. (With requested solidity 0 the
prior solidity persists into the output, as the counterexample
shows; and the square and hardcoded-rectangle strategies leave most
workspace fields stale, but never read them.) -/
theorem C8_output_independence :
    ∀ (env : ShadowEnv) (stA stB : Shadow) (flA flB : ShadowFlags) (x y z : ℚ)
      (sc : ℤ) (sol : ℕ) (stype : ℤ), sol ≠ 0 →
      (create_shadow_below_xyz env stA flA x y z sc sol stype).map (fun r => r.1) =
        (create_shadow_below_xyz env stB flB x y z sc sol stype).map (fun r => r.1) := by
  intro env stA stB flA flB x y z sc sol stype hsol
  rcases resolved_floor_congr env stA stB x y z with ⟨hA, hB⟩ | ⟨s1, s2, hA, hB, hf, hh⟩
  · simp [create_shadow_below_xyz, hA, hB]
  · simp only [create_shadow_below_xyz, hA, hB]
    exact build_output_congr env s1 s2 x y z sc sol stype hf hh hsol

/-- Witness for C8_output_independence at concrete inputs: builds
from two different stale workspaces with requested solidity 50 give
identical output. -/
theorem C8_output_independence_witness :
    (50 : ℕ) ≠ 0 ∧
    (create_shadow_below_xyz testEnv { testShadow with solidity := 50 }
        SHADOW_FLAGS_NONE 0 0 0 100 50 SHADOW_CIRCLE).map (fun r => r.1) =
      (create_shadow_below_xyz testEnv { testShadow with solidity := 77 }
        SHADOW_FLAGS_NONE 0 0 0 100 50 SHADOW_CIRCLE).map (fun r => r.1) :=
  ⟨by norm_num,
   C8_output_independence testEnv { testShadow with solidity := 50 }
     { testShadow with solidity := 77 } SHADOW_FLAGS_NONE SHADOW_FLAGS_NONE
     0 0 0 100 50 SHADOW_CIRCLE (by norm_num)⟩

/-! ## C9: the unguarded hardcoded-rectangle table lookup -/

/-- C9: every shadow type outside the recognized player-circle,
circle and three square variants is routed to the
hardcoded-rectangle strategy, and the concrete shadow type 12 (well
inside the s8 argument range) computes table index 7, outside the
bounds of the 2-element rectangles table, yet the read is attempted
with no range check: the build reaches the out-of-bounds access,
modelled as the outer none. -/
theorem C9_unguarded_rectangle_lookup :
    (∀ (stype : ℤ) (env : ShadowEnv) (st1 : Shadow) (flags1 : ShadowFlags)
        (x y z : ℚ) (sc : ℤ) (sol : ℕ),
      stype ≠ SHADOW_CIRCLE_PLAYER → stype ≠ SHADOW_CIRCLE →
      stype ≠ SHADOW_SQUARE_PERMANENT → stype ≠ SHADOW_SQUARE_SCALABLE →
      stype ≠ SHADOW_SQUARE_TOGGLABLE →
      shadow_dispatch env st1 flags1 x y z sc sol stype =
        (create_shadow_hardcoded_rectangle env st1 flags1 x y z sc sol stype).map
          (fun p => (p.1, st1, p.2))) ∧
    (((-128 : ℤ) ≤ 12 ∧ (12 : ℤ) ≤ 127) ∧
      ¬ (0 ≤ (12 : ℤ) - SHADOW_RECTANGLE_HARDCODED_OFFSET ∧
          (12 : ℤ) - SHADOW_RECTANGLE_HARDCODED_OFFSET < 2) ∧
      rectangles.get? ((12 : ℤ) - SHADOW_RECTANGLE_HARDCODED_OFFSET).toNat = none ∧
      create_shadow_below_xyz testEnv testShadow SHADOW_FLAGS_NONE 0 0 0 100 50 12 =
        none) := by
  constructor
  · intro stype env st1 flags1 x y z sc sol h1 h2 h3 h4 h5
    simp [shadow_dispatch, h1, h2, h3, h4, h5]
  · refine ⟨by norm_num, ?_, ?_, ?_⟩
    · norm_num [SHADOW_RECTANGLE_HARDCODED_OFFSET]
    · rfl
    · norm_num [create_shadow_below_xyz, resolved_floor, shadow_build_with_floor,
        shadow_dispatch, create_shadow_hardcoded_rectangle, get_shadow_height_solidity,
        testEnv, testShadow, FLOOR_LOWER_LIMIT_MISC, SHADOW_CIRCLE_PLAYER,
        SHADOW_CIRCLE, SHADOW_SQUARE_PERMANENT, SHADOW_SQUARE_SCALABLE,
        SHADOW_SQUARE_TOGGLABLE, SHADOW_RECTANGLE_HARDCODED_OFFSET, rectangles]
      rfl

/-! ## C10: the water-box alpha override -/

/-- A vertex built with the water-box flag set has alpha exactly 200,
whatever the workspace solidity holds. -/
lemma make_shadow_vertex_alpha_waterbox (env : ShadowEnv) (st : Shadow)
    (flags : ShadowFlags) (i : ℕ) (h : flags.waterBox = true) :
    (make_shadow_vertex env st flags i).alpha = 200 := by
  simp [make_shadow_vertex, make_shadow_vertex_at_xyz, h]

/-- All four vertices built with the water-box flag set carry
alpha 200. -/
lemma verts_alpha_200 (env : ShadowEnv) (st : Shadow) (flags : ShadowFlags)
    (h : flags.waterBox = true) :
    ∀ v ∈ [0, 1, 2, 3].map (make_shadow_vertex env st flags), v.alpha = 200 := by
  intro v hv
  simp only [List.mem_map] at hv
  obtain ⟨i, _, rfl⟩ := hv
  exact make_shadow_vertex_alpha_waterbox env st flags i h

/-- With no water below the sentinel, init_shadow keeps the floor
reference and the flags unchanged. -/
lemma init_preserves_floor_nowater (env : ShadowEnv) (st : Shadow)
    (flags : ShadowFlags) (x y z : ℚ) (sc : ℤ) (ow : ℕ)
    (hwb : flags.waterBox = false)
    (hwl : (env.find_water_level_and_floor x z).1 < FLOOR_LOWER_LIMIT_MISC) :
    (init_shadow env st flags x y z sc ow).2.1.floor = st.floor ∧
    (init_shadow env st flags x y z sc ow).2.2 = flags := by
  have hg1 : (get_water_level_below_shadow env
      { st with parentPos := ⟨x, y, z⟩ } flags).2.1 = flags := by
    simp [get_water_level_below_shadow, hwl]
  simp only [init_shadow, init_shadow_resolve, hg1, hwb, Bool.false_eq_true,
    if_false, init_shadow_finish]
  split_ifs <;> exact ⟨rfl, rfl⟩

/-- The post-animation phase of the player strategy over LLL area-1
burning lava with no water below: every emitted vertex has
alpha 200. -/
lemma post_lava_alpha (env : ShadowEnv) (a2 : Shadow) (flC : ShadowFlags)
    (x y z : ℚ) (sc : ℤ) (ow : ℕ) (g : ShadowGfx)
    (hwb : flC.waterBox = false)
    (hwl : (env.find_water_level_and_floor x z).1 < FLOOR_LOWER_LIMIT_MISC)
    (hlvl : env.gCurrLevelNum = LEVEL_LLL) (harea : env.gCurrAreaIndex = 1)
    (hburn : a2.floor.stype = SURFACE_BURNING)
    (hgfx : (create_shadow_player_post env a2 flC x y z sc ow).1 = some g) :
    ∀ v ∈ g.verts, v.alpha = 200 := by
  have hp := init_preserves_floor_nowater env a2 flC x y z sc ow hwb hwl
  have hlava : (correct_lava_shadow_height env
      (init_shadow env a2 flC x y z sc ow).2.1
      (init_shadow env a2 flC x y z sc ow).2.2).2.waterBox = true := by
    have hb : ¬ (env.gCurrLevelNum = LEVEL_BITFS ∧
        (init_shadow env a2 flC x y z sc ow).2.1.floor.stype = SURFACE_BURNING) := by
      rw [hlvl]
      simp [LEVEL_LLL, LEVEL_BITFS]
    have hc : env.gCurrLevelNum = LEVEL_LLL ∧ env.gCurrAreaIndex = 1 ∧
        (init_shadow env a2 flC x y z sc ow).2.1.floor.stype = SURFACE_BURNING :=
      ⟨hlvl, harea, by rw [hp.1]; exact hburn⟩
    simp only [correct_lava_shadow_height, if_neg hb, if_pos hc]
  by_cases hfail : (init_shadow env a2 flC x y z sc ow).1
  · simp [create_shadow_player_post, hfail] at hgfx
  · by_cases halloc : env.allocVertsOk = false ∨ env.allocDisplayListOk = false
    · simp [create_shadow_player_post, hfail, halloc] at hgfx
    · simp only [create_shadow_player_post, Bool.not_eq_true] at hgfx
      rw [if_neg (by simpa using hfail), if_neg halloc] at hgfx
      simp only [Option.some.injEq] at hgfx
      subst hgfx
      exact verts_alpha_200 env _ _ hlava

/-- A successful player shadow over LLL area-1 burning lava with no
water below yields only alpha-200 vertices. -/
lemma player_lava_alpha (env : ShadowEnv) (st1 : Shadow) (fl1 : ShadowFlags)
    (x y z : ℚ) (sc : ℤ) (sol : ℕ) (g : ShadowGfx)
    (hwb : fl1.waterBox = false)
    (hwl : (env.find_water_level_and_floor x z).1 < FLOOR_LOWER_LIMIT_MISC)
    (hlvl : env.gCurrLevelNum = LEVEL_LLL) (harea : env.gCurrAreaIndex = 1)
    (hburn : st1.floor.stype = SURFACE_BURNING)
    (hgfx : (create_shadow_player env st1 fl1 x y z sc sol).1 = some g) :
    ∀ v ∈ g.verts, v.alpha = 200 := by
  have hflwb : (player_carpet_flags env st1 fl1).waterBox = false := by
    unfold player_carpet_flags
    split_ifs <;> simp [hwb]
  by_cases hns : (correct_shadow_solidity_for_animations env st1 sol).1 =
      SHADOW_SOLIDITY_NO_SHADOW
  · simp [create_shadow_player, hns] at hgfx
  · simp only [create_shadow_player, if_neg hns] at hgfx
    exact post_lava_alpha env _ _ x y z sc _ g hflwb hwl hlvl harea
      (by rw [(anim_preserves env st1 sol).2]; exact hburn) hgfx

/-- C10: whenever the water-box flag is set at the moment a vertex is
built, make_shadow_vertex emits that vertex with alpha exactly 200,
overriding the workspace solidity; hence every successful player
build over LLL area-1 burning lava (with no water below, where the
flag is set by the lava height correction rather than by water)
carries alpha 200 on all four vertices, regardless of the requested
solidity. -/
theorem C10_waterbox_alpha_override :
    (∀ (env : ShadowEnv) (st : Shadow) (flags : ShadowFlags) (i : ℕ),
      flags.waterBox = true → (make_shadow_vertex env st flags i).alpha = 200) ∧
    (∀ (env : ShadowEnv) (st0 st1 : Shadow) (flags0 : ShadowFlags) (x y z : ℚ)
        (sc : ℤ) (sol : ℕ) (g : ShadowGfx),
      env.gCurrLevelNum = LEVEL_LLL → env.gCurrAreaIndex = 1 →
      resolved_floor env st0 x y z = some st1 →
      st1.floor.stype = SURFACE_BURNING →
      (env.find_water_level_and_floor x z).1 < FLOOR_LOWER_LIMIT_MISC →
      (create_shadow_below_xyz env st0 flags0 x y z sc sol
        SHADOW_CIRCLE_PLAYER).map (fun r => r.1) = some (some g) →
      ∀ v ∈ g.verts, v.alpha = 200) := by
  constructor
  · exact fun env st flags i h => make_shadow_vertex_alpha_waterbox env st flags i h
  · intro env st0 st1 flags0 x y z sc sol g hlvl harea hres hburn hwl hgfx
    simp [create_shadow_below_xyz, hres, shadow_build_with_floor,
      shadow_dispatch] at hgfx
    exact player_lava_alpha env st1 _ x y z sc sol g rfl hwl hlvl harea hburn hgfx

/-- Witness for C9_unguarded_rectangle_lookup: the dispatch of the
unrecognized shadow type 12 at a concrete environment. -/
theorem C9_unguarded_rectangle_lookup_witness :
    shadow_dispatch testEnv testShadow SHADOW_FLAGS_NONE 0 0 0 100 50 12 =
      (create_shadow_hardcoded_rectangle testEnv testShadow SHADOW_FLAGS_NONE
        0 0 0 100 50 12).map (fun p => (p.1, testShadow, p.2)) :=
  (C9_unguarded_rectangle_lookup).1 12 testEnv testShadow SHADOW_FLAGS_NONE 0 0 0 100 50
    (by norm_num [SHADOW_CIRCLE_PLAYER]) (by norm_num [SHADOW_CIRCLE])
    (by norm_num [SHADOW_SQUARE_PERMANENT]) (by norm_num [SHADOW_SQUARE_SCALABLE])
    (by norm_num [SHADOW_SQUARE_TOGGLABLE])

/-- Witness for C10_waterbox_alpha_override: a concrete vertex built
with the water-box flag set, and the first vertex of a concrete
successful player build over LLL lava. -/
theorem C10_waterbox_alpha_override_witness :
    (make_shadow_vertex testEnv testShadow ⟨true, false, false, false⟩ 0).alpha = 200 ∧
    (⟨0, 0, 0, -480, -480, 200⟩ : ShadowVtx).alpha = 200 := by
  constructor
  · exact (C10_waterbox_alpha_override).1 testEnv testShadow
      ⟨true, false, false, false⟩ 0 rfl
  · exact (C10_waterbox_alpha_override).2 lavaEnv testShadow
      { testShadow with floor := ⟨⟨0, 1, 0⟩, SURFACE_BURNING⟩, floorHeight := 0 }
      SHADOW_FLAGS_NONE 0 5 0 100 50 lavaGfx rfl rfl
      (by norm_num [resolved_floor, testEnv, testShadow, testSurface]) rfl
      (by norm_num [testEnv, FLOOR_LOWER_LIMIT_MISC])
      (by
        norm_num [create_shadow_below_xyz, resolved_floor, shadow_build_with_floor,
          shadow_dispatch, create_shadow_player, player_carpet_flags,
          correct_shadow_solidity_for_animations, create_shadow_player_post,
          init_shadow, init_shadow_resolve, get_water_level_below_shadow,
          init_shadow_finish, correct_lava_shadow_height, make_shadow_vertex,
          calculate_vertex_xyz, get_vertex_coords, make_shadow_vertex_at_xyz,
          get_texture_coords, roundf, s32_to_u8, f32_to_u8,
          scale_shadow_with_distance, dim_shadow_with_distance, testEnv, testShadow,
          testSurface, FLOOR_LOWER_LIMIT_MISC, SHADOW_FLAGS_NONE, LEVEL_LLL,
          LEVEL_BITFS, LEVEL_RR, SURFACE_BURNING, SURFACE_ICE, SURFACE_DEATH_PLANE,
          MARIO_ANIM_IDLE_ON_LEDGE, MARIO_ANIM_FAST_LEDGE_GRAB,
          MARIO_ANIM_SLOW_LEDGE_GRAB, MARIO_ANIM_CLIMB_DOWN_LEDGE,
          SHADOW_SOLIDITY_NO_SHADOW, SHADOW_SOILDITY_ALREADY_SET,
          SHADOW_SOLIDITY_NOT_YET_SET, SHADOW_CIRCLE_PLAYER, SHADOW_CIRCLE,
          SHADOW_SQUARE_PERMANENT, SHADOW_SQUARE_SCALABLE, SHADOW_SQUARE_TOGGLABLE,
          SHADOW_SHAPE_CIRCLE]
        decide)
      ⟨0, 0, 0, -480, -480, 200⟩ (by decide)

end SM64Shadow
